import Mathlib

/-!
Verification of the active-learning and retraining/deployment core of the
RadiKal weld-radiograph service.

The Python sources embedded here are:
- `backend/core/learning/active_learner.py` (uncertainty, disagreement,
  diversity and class-balance scorers),
- `backend/core/training/retraining_pipeline.py` (trigger evaluation, dataset
  assembly, training driver, validation, deployment, full pipeline),
- `backend/api/custom_defects_routes.py` (deploy/rollback routes and the
  active-learning queue routes).

Probabilities, scores and thresholds that are IEEE floats in the source are
modelled as rationals (`ℚ`); values produced by transcendental functions
(`log`, `sqrt`) live in `ℝ`.  Database rows are records, a table is a list of
rows in insertion order, and a SQLAlchemy `query(...).first()` mutation is an
update of the first matching list element.  External collaborators (the
training and evaluation backends, the filesystem, `np.random.shuffle`) enter
as explicit oracle parameters.
-/

namespace RadiKal

/-- Numeric epsilon `1e-10` added elementwise to the probability vector before
the entropy call (`probabilities + 1e-10` in `calculate_uncertainty`). -/
def eps : ℚ := 1 / 10000000000

/-- The `method` argument of `ActiveLearner.calculate_uncertainty`. -/
inductive UncMethod where
  | entropy
  | margin
  | least_confident
deriving DecidableEq

/-- Model of `scipy.stats.entropy pk`: scipy renormalizes the input vector by
its sum before taking Shannon entropy (it computes `pk / pk.sum()` and then
`-(pk * log pk).sum()`). -/
noncomputable def scipyEntropy (pk : List ℚ) : ℝ :=
  (pk.map (fun x => -((((x / pk.sum : ℚ) : ℝ)) * Real.log ((x / pk.sum : ℚ) : ℝ)))).sum

/-- Model of `np.log(len(probabilities))`, the divisor of the entropy branch of
`calculate_uncertainty`. -/
noncomputable def maxEntropy (probabilities : List ℚ) : ℝ :=
  Real.log probabilities.length

/-- `ActiveLearner.calculate_uncertainty`.  The entropy branch divides the
(renormalized) entropy by `np.log(len(probabilities))` with no emptiness or
normalization guard; the margin branch sorts descending (`np.sort` followed by
`[::-1]`) and returns `0.0` when fewer than two entries exist; the
least-confident branch models `np.max`, which raises `ValueError` on an empty
array (the only input any method rejects). -/
noncomputable def calculate_uncertainty (probabilities : List ℚ) (method : UncMethod) :
    Except String ℝ :=
  match method with
  | .entropy =>
      .ok (scipyEntropy (probabilities.map (fun x => x + eps)) / maxEntropy probabilities)
  | .margin =>
      match probabilities.mergeSort (fun a b => decide (b ≤ a)) with
      | p1 :: p2 :: _ => .ok ((((1 : ℚ) - (p1 - p2)) : ℚ) : ℝ)
      | _ => .ok ((0 : ℚ) : ℝ)
  | .least_confident =>
      match probabilities.max? with
      | none => .error "zero-size array to reduction operation maximum"
      | some m => .ok (((1 - m : ℚ) : ℝ))

/-- Dot product of two feature vectors (elementwise product then sum, with
numpy broadcasting truncation on unequal lengths). -/
def dotQ (u v : List ℚ) : ℚ := (List.zipWith (fun a b => a * b) u v).sum

/-- Model of sklearn row normalization: a row with zero norm keeps divisor 1
(sklearn `normalize` replaces zero norms by one before dividing). -/
noncomputable def safeNorm (x : ℝ) : ℝ := if x = 0 then 1 else x

/-- Euclidean norm of a feature vector. -/
noncomputable def normR (u : List ℚ) : ℝ := Real.sqrt ((dotQ u u : ℚ) : ℝ)

/-- Model of `sklearn.metrics.pairwise.cosine_similarity` for one pair of
rows. -/
noncomputable def cosineSim (u v : List ℚ) : ℝ :=
  ((dotQ u v : ℚ) : ℝ) / (safeNorm (normR u) * safeNorm (normR v))

/-- `ActiveLearner.calculate_diversity_score`: `1.0` on an empty labeled pool,
otherwise `1 - max cosine similarity` over the pool (`np.max` of the
similarity row), with no clamp applied to the result. -/
noncomputable def calculate_diversity_score (image_features : List ℚ)
    (labeled_features : List (List ℚ)) : ℝ :=
  match labeled_features with
  | [] => 1
  | w :: ws =>
      1 - (ws.map (cosineSim image_features)).foldl max (cosineSim image_features w)

/-- `ActiveLearner.calculate_class_imbalance_priority`: `1.0` for a class
missing from the counts mapping, `0.0` once the count reaches
`min_samples_per_class`, otherwise the linear ramp
`1 - current_count / min_samples_per_class`. -/
def calculate_class_imbalance_priority (min_samples_per_class : ℕ) (predicted_class : ℤ)
    (class_counts : List (ℤ × ℕ)) : ℚ :=
  match class_counts.lookup predicted_class with
  | none => 1
  | some current_count =>
      if min_samples_per_class ≤ current_count then 0
      else 1 - (current_count : ℚ) / (min_samples_per_class : ℚ)

end RadiKal

namespace RadiKal

/-- Claim C9: for a fixed minimum-required count `m ≥ 1` the class-balance
score of `calculate_class_imbalance_priority` is `1` when the category is
absent from the counts mapping, `0` whenever the stored count is at least `m`,
`1 - count / m` otherwise, and it is monotonically non-increasing in the
category's current count. -/
theorem c9_class_balance (m : ℕ) (hm : 1 ≤ m) (cat : ℤ) (class_counts : List (ℤ × ℕ)) :
    (class_counts.lookup cat = none →
      calculate_class_imbalance_priority m cat class_counts = 1) ∧
    (∀ c, class_counts.lookup cat = some c →
      (m ≤ c → calculate_class_imbalance_priority m cat class_counts = 0) ∧
      (c < m → calculate_class_imbalance_priority m cat class_counts = 1 - (c : ℚ) / (m : ℚ))) ∧
    (∀ c1 c2 rest, c1 ≤ c2 →
      calculate_class_imbalance_priority m cat ((cat, c2) :: rest) ≤
        calculate_class_imbalance_priority m cat ((cat, c1) :: rest)) := by
  have hmQ : (0 : ℚ) < (m : ℚ) := by exact_mod_cast hm
  refine ⟨?_, ?_, ?_⟩
  · intro h
    simp [calculate_class_imbalance_priority, h]
  · intro c hc
    constructor
    · intro hle
      simp [calculate_class_imbalance_priority, hc, hle]
    · intro hlt
      simp [calculate_class_imbalance_priority, hc, Nat.not_le_of_lt hlt]
  · intro c1 c2 rest h12
    have hl1 : ((cat, c1) :: rest).lookup cat = some c1 := by simp [List.lookup]
    have hl2 : ((cat, c2) :: rest).lookup cat = some c2 := by simp [List.lookup]
    by_cases h2 : m ≤ c2
    · by_cases h1 : m ≤ c1
      · simp [calculate_class_imbalance_priority, hl1, hl2, h1, h2]
      · have hc1 : (c1 : ℚ) / (m : ℚ) < 1 := by
          rw [div_lt_one hmQ]
          exact_mod_cast Nat.lt_of_not_le h1
        simp only [calculate_class_imbalance_priority, hl1, hl2, if_pos h2, if_neg h1]
        linarith
    · have h1 : ¬ m ≤ c1 := fun h => h2 (le_trans h (by exact_mod_cast h12))
      simp only [calculate_class_imbalance_priority, hl1, hl2, if_neg h1, if_neg h2]
      have : (c1 : ℚ) / (m : ℚ) ≤ (c2 : ℚ) / (m : ℚ) := by
        gcongr
      linarith

/-- Witness for C9 at `m = 50`, a category stored with count `10`. -/
theorem c9_witness :
    calculate_class_imbalance_priority 50 0 [(0, 10)] = 1 - (10 : ℚ) / (50 : ℚ) := by
  have h := (c9_class_balance 50 (by norm_num) 0 [(0, 10)]).2.1 10 (by simp [List.lookup])
  exact h.2 (by norm_num)

end RadiKal

namespace RadiKal

/-- Claim C10: the entropy branch of `calculate_uncertainty` divides by
`np.log(len(probabilities))` with no guard.  For a probability vector of
length one that divisor is `ln 1 = 0`, so the division-by-zero branch is
reachable; for length at least two the divisor is strictly positive, which is
why `C ≥ 2` is the precondition actually needed by the estimator. -/
theorem c10_entropy_divisor :
    (∀ p : List ℚ, p.length = 1 →
      maxEntropy p = 0 ∧
      calculate_uncertainty p .entropy =
        .ok (scipyEntropy (p.map (fun x => x + eps)) / 0)) ∧
    (∀ p : List ℚ, 2 ≤ p.length → 0 < maxEntropy p) := by
  constructor
  · intro p hp
    have hz : maxEntropy p = 0 := by
      simp [maxEntropy, hp]
    exact ⟨hz, by simp [calculate_uncertainty, hz]⟩
  · intro p hp
    have : (1 : ℝ) < (p.length : ℝ) := by exact_mod_cast hp
    exact Real.log_pos this

/-- Witness for C10: the singleton vector `[1]` reaches the zero divisor and
the pair `[1/2, 1/2]` has a positive one. -/
theorem c10_witness :
    maxEntropy [(1 : ℚ)] = 0 ∧ 0 < maxEntropy [(1 : ℚ)/2, 1/2] :=
  ⟨(c10_entropy_divisor.1 [1] rfl).1, c10_entropy_divisor.2 [1/2, 1/2] (by simp)⟩

/-- Counterexample for C7 as stated: the scorers do not fail fast on a
contract-violating vector.  The margin method returns the score `0.0` on the
empty vector, and the least-confident method returns a score on a vector whose
entries sum to `3/2`, not `1`. -/
theorem c7_counterexample :
    calculate_uncertainty [] .margin = .ok ((0 : ℚ) : ℝ) ∧
    ((1 : ℚ)/2 + 1/2 + 1/2 ≠ 1) ∧
    calculate_uncertainty [1/2, 1/2, 1/2] .least_confident = .ok (((1 : ℚ)/2 : ℚ) : ℝ) := by
  refine ⟨?_, by norm_num, ?_⟩
  · simp [calculate_uncertainty, List.mergeSort_nil]
  · have hmax : ([1/2, 1/2, 1/2] : List ℚ).max? = some (1/2) := by simp [List.max?]
    simp only [calculate_uncertainty, hmax]
    norm_num

/-- Claim C7 as amended: no method validates normalization, and the only
failing input of `calculate_uncertainty` is the empty vector under the
least-confident method (where `np.max` raises); every other input — including
empty vectors under entropy and margin, and non-normalized vectors under all
three methods — silently yields a score (the entropy branch renormalizes via
`scipy.stats.entropy`). -/
theorem c7_amended (probabilities : List ℚ) (method : UncMethod) :
    (∃ e, calculate_uncertainty probabilities method = .error e) ↔
      (method = .least_confident ∧ probabilities = []) := by
  constructor
  · rintro ⟨e, he⟩
    cases method with
    | entropy => simp [calculate_uncertainty] at he
    | margin =>
        rcases hs : probabilities.mergeSort (fun a b => decide (b ≤ a)) with _ | ⟨p1, _ | ⟨p2, rest⟩⟩ <;>
          simp [calculate_uncertainty, hs] at he
    | least_confident =>
        rcases hm : probabilities.max? with _ | m
        · exact ⟨rfl, List.max?_eq_none_iff.mp hm⟩
        · simp [calculate_uncertainty, hm] at he
  · rintro ⟨hmeth, hnil⟩
    subst hmeth; subst hnil
    exact ⟨"zero-size array to reduction operation maximum", rfl⟩

/-- Witness for C7 (amended) at the concrete failing input: the
least-confident method on the empty vector errors. -/
theorem c7_witness :
    ∃ e, calculate_uncertainty [] .least_confident = .error e :=
  (c7_amended [] .least_confident).mpr ⟨rfl, rfl⟩

end RadiKal

namespace RadiKal

lemma dotQ_self_nonneg (u : List ℚ) : 0 ≤ dotQ u u := by
  induction u with
  | nil => simp [dotQ]
  | cons a us ih =>
      simp only [dotQ, List.zipWith_cons_cons, List.sum_cons] at ih ⊢
      nlinarith [sq_nonneg a]

lemma dotQ_cauchy_schwarz (u v : List ℚ) : dotQ u v ^ 2 ≤ dotQ u u * dotQ v v := by
  induction u generalizing v with
  | nil => simp [dotQ]
  | cons a us ih =>
      cases v with
      | nil => simp [dotQ, dotQ_self_nonneg]
      | cons b vs =>
          have hS := ih vs
          have hA := dotQ_self_nonneg us
          have hB := dotQ_self_nonneg vs
          simp only [dotQ, List.zipWith_cons_cons, List.sum_cons] at hS hA hB ⊢
          set S := (List.zipWith (fun a b => a * b) us vs).sum with hSdef
          set A := (List.zipWith (fun a b => a * b) us us).sum with hAdef
          set B := (List.zipWith (fun a b => a * b) vs vs).sum with hBdef
          rcases eq_or_lt_of_le hB with hB0 | hB0
          · have hS0 : S = 0 := by
              have h2 : S ^ 2 ≤ 0 := by rw [← hB0] at hS; linarith [hS]
              exact pow_eq_zero_iff (n := 2) (by norm_num) |>.mp
                (le_antisymm h2 (sq_nonneg S))
            rw [hS0, ← hB0]
            nlinarith [mul_nonneg hA (sq_nonneg b)]
          · have key : 0 ≤ B * ((a * a + A) * (b * b + B) - (a * b + S) ^ 2) := by
              nlinarith [sq_nonneg (a * B - b * S), mul_nonneg (sub_nonneg.mpr hS) hB,
                mul_nonneg (sub_nonneg.mpr hS) (sq_nonneg b)]
            have hQ := (mul_nonneg_iff_of_pos_left hB0).mp key
            linarith

lemma cosineSim_bounds (u v : List ℚ) : -1 ≤ cosineSim u v ∧ cosineSim u v ≤ 1 := by
  have hA : (0 : ℝ) ≤ ((dotQ u u : ℚ) : ℝ) := by exact_mod_cast dotQ_self_nonneg u
  have hB : (0 : ℝ) ≤ ((dotQ v v : ℚ) : ℝ) := by exact_mod_cast dotQ_self_nonneg v
  have hCS : ((dotQ u v : ℚ) : ℝ) ^ 2 ≤ ((dotQ u u : ℚ) : ℝ) * ((dotQ v v : ℚ) : ℝ) := by
    exact_mod_cast dotQ_cauchy_schwarz u v
  set D := ((dotQ u v : ℚ) : ℝ)
  set A := ((dotQ u u : ℚ) : ℝ)
  set B := ((dotQ v v : ℚ) : ℝ)
  by_cases hu : Real.sqrt A = 0
  · have hA0 : A = 0 := Real.sqrt_eq_zero hA |>.mp hu
    have hD : D = 0 := by
      have h2 : D ^ 2 ≤ 0 := by rw [hA0] at hCS; linarith
      exact pow_eq_zero_iff (n := 2) (by norm_num) |>.mp (le_antisymm h2 (sq_nonneg D))
    rw [cosineSim, show ((dotQ u v : ℚ) : ℝ) = 0 from hD, zero_div]
    norm_num
  · by_cases hv : Real.sqrt B = 0
    · have hB0 : B = 0 := Real.sqrt_eq_zero hB |>.mp hv
      have hD : D = 0 := by
        have h2 : D ^ 2 ≤ 0 := by rw [hB0] at hCS; nlinarith
        exact pow_eq_zero_iff (n := 2) (by norm_num) |>.mp (le_antisymm h2 (sq_nonneg D))
      rw [cosineSim, show ((dotQ u v : ℚ) : ℝ) = 0 from hD, zero_div]
      norm_num
    · have hApos : 0 < Real.sqrt A := lt_of_le_of_ne (Real.sqrt_nonneg A) (Ne.symm hu)
      have hBpos : 0 < Real.sqrt B := lt_of_le_of_ne (Real.sqrt_nonneg B) (Ne.symm hv)
      have habs : |D| ≤ Real.sqrt A * Real.sqrt B := by
        calc |D| = Real.sqrt (D ^ 2) := (Real.sqrt_sq_eq_abs D).symm
          _ ≤ Real.sqrt (A * B) := Real.sqrt_le_sqrt hCS
          _ = Real.sqrt A * Real.sqrt B := Real.sqrt_mul hA B
      have hdenpos : 0 < Real.sqrt A * Real.sqrt B := mul_pos hApos hBpos
      have habs2 : |cosineSim u v| ≤ 1 := by
        rw [cosineSim]
        show |D / (safeNorm (normR u) * safeNorm (normR v))| ≤ 1
        rw [show safeNorm (normR u) = Real.sqrt A by rw [normR]; exact if_neg hu,
          show safeNorm (normR v) = Real.sqrt B by rw [normR]; exact if_neg hv]
        rw [abs_div, abs_of_pos hdenpos, div_le_one hdenpos]
        exact habs
      exact abs_le.mp habs2

lemma foldl_max_bounds (l : List ℝ) (x lo hi : ℝ) (hx : lo ≤ x ∧ x ≤ hi)
    (hl : ∀ y ∈ l, lo ≤ y ∧ y ≤ hi) : lo ≤ l.foldl max x ∧ l.foldl max x ≤ hi := by
  induction l generalizing x with
  | nil => simpa using hx
  | cons y ys ih =>
      have hy := hl y (by simp)
      refine ih (max x y) ⟨le_trans hx.1 (le_max_left x y), max_le hx.2 hy.2⟩
        (fun z hz => hl z (by simp [hz]))

/-- Counterexample for C8 as stated: the diversity score is not always in
`[0, 1]`.  For the candidate `[1, 0]` against the single pool member
`[-1, 0]` the cosine similarity is `-1`, so the score `1 - max_similarity`
equals `2`. -/
theorem c8_counterexample :
    calculate_diversity_score [1, 0] [[-1, 0]] = 2 ∧
    ¬ calculate_diversity_score [1, 0] [[-1, 0]] ≤ 1 := by
  have h1 : dotQ [1, 0] [1, 0] = 1 := by norm_num [dotQ]
  have h2 : dotQ [-1, 0] [-1, 0] = 1 := by norm_num [dotQ]
  have h3 : dotQ [1, 0] [-1, 0] = -1 := by norm_num [dotQ]
  have hval : calculate_diversity_score [1, 0] [[-1, 0]] = 2 := by
    simp only [calculate_diversity_score, cosineSim, normR, h1, h2, h3, List.map_nil,
      List.foldl_nil]
    norm_num [safeNorm, Real.sqrt_one]
  exact ⟨hval, by rw [hval]; norm_num⟩

/-- Claim C8 as amended: `calculate_diversity_score` equals `1.0` on an empty
pool and otherwise `1 - max cosine similarity` over the pool; because cosine
similarities can be negative and no clamp is applied, the score is only
guaranteed to lie in `[0, 2]` (it exceeds 1 exactly when the best similarity
is negative), not in `[0, 1]`. -/
theorem c8_amended (image_features : List ℚ) (pool : List (List ℚ)) :
    (pool = [] → calculate_diversity_score image_features pool = 1) ∧
    0 ≤ calculate_diversity_score image_features pool ∧
    calculate_diversity_score image_features pool ≤ 2 := by
  cases pool with
  | nil => exact ⟨fun _ => rfl, by norm_num [calculate_diversity_score],
      by norm_num [calculate_diversity_score]⟩
  | cons w ws =>
      refine ⟨fun h => by simp at h, ?_, ?_⟩ <;>
      · have hbound := foldl_max_bounds (ws.map (cosineSim image_features))
          (cosineSim image_features w) (-1) 1 (cosineSim_bounds image_features w)
          (by
            intro y hy
            rcases List.mem_map.mp hy with ⟨v, _, rfl⟩
            exact cosineSim_bounds image_features v)
        simp only [calculate_diversity_score]
        rcases hbound with ⟨hlo, hhi⟩
        linarith

/-- Witness for C8 (amended) at a concrete pool: score `1` on the empty pool
and the bounds at a one-member pool. -/
theorem c8_witness :
    calculate_diversity_score [1, 0] [] = 1 ∧
    0 ≤ calculate_diversity_score [1, 0] [[0, 1]] ∧
    calculate_diversity_score [1, 0] [[0, 1]] ≤ 2 :=
  ⟨(c8_amended [1, 0] []).1 rfl, (c8_amended [1, 0] [[0, 1]]).2.1,
    (c8_amended [1, 0] [[0, 1]]).2.2⟩

end RadiKal

namespace RadiKal

/-- One row of the `active_learning_queue` table (`ActiveLearningQueue` in
`db/models.py`); timestamps are abstract ticks, `added_at` is set at insertion
so a table in insertion order has non-decreasing `added_at`. -/
structure ALCandidate where
  id : ℕ
  analysis_id : ℕ
  uncertainty_score : ℚ
  priority_score : ℚ
  selection_method : String
  suggested_defect_types : List String
  status : String
  added_at : ℕ
  reviewed_at : Option ℕ
deriving DecidableEq

/-- The part of an `analyses` table row used by the suggestion routes. -/
structure AnalysisRow where
  id : ℕ
  image_id : String
deriving DecidableEq

/-- The response model `ActiveLearningSuggestion` of the suggestions route. -/
structure ALSuggestion where
  id : ℕ
  analysis_id : ℕ
  image_id : String
  uncertainty_score : ℚ
  priority_score : ℚ
  selection_method : String
  suggested_defect_types : List String
  status : String
  added_at : ℕ
deriving DecidableEq

/-- Filter clause of the suggestions query: status `pending` and
`uncertainty_score >= min_uncertainty`. -/
def queueFilter (min_uncertainty : ℚ) (queue : List ALCandidate) : List ALCandidate :=
  queue.filter
    (fun c => c.status == "pending" && decide (min_uncertainty ≤ c.uncertainty_score))

/-- The row orders a SQL backend may return for
`order_by(priority_score.desc())` over the filtered rows: any permutation of
them that is sorted by `priority_score` descending.  The query has no
secondary sort key, so the relative order of equal-priority rows is left
entirely to the backend. -/
def isPriorityDescOrdering (rows result : List ALCandidate) : Prop :=
  rows.Perm result ∧
    result.Pairwise (fun a b => b.priority_score ≤ a.priority_score)

/-- Route `get_active_learning_suggestions`, applied to the row order
`ordered` that the backend returned for the filtered, priority-ordered query
(`isPriorityDescOrdering` says which orders are admissible): take `limit`
rows, then join each suggestion with its `Analysis` row, silently dropping
suggestions whose analysis row is missing. -/
def get_active_learning_suggestions (ordered : List ALCandidate)
    (analyses : List AnalysisRow) (limit : ℕ) : List ALSuggestion :=
  (ordered.take limit).filterMap (fun s =>
    (analyses.find? (fun a => a.id == s.analysis_id)).map (fun a =>
      { id := s.id, analysis_id := s.analysis_id, image_id := a.image_id,
        uncertainty_score := s.uncertainty_score, priority_score := s.priority_score,
        selection_method := s.selection_method,
        suggested_defect_types := s.suggested_defect_types,
        status := s.status, added_at := s.added_at }))

lemma pairwise_filterMap_transport {α β : Type} {f : α → Option β}
    {R : α → α → Prop} {S : β → β → Prop}
    (hf : ∀ a b x y, f a = some x → f b = some y → R a b → S x y) :
    ∀ {l : List α}, l.Pairwise R → (l.filterMap f).Pairwise S := by
  intro l hl
  induction l with
  | nil => simp
  | cons a as ih =>
      rcases List.pairwise_cons.mp hl with ⟨ha, has⟩
      cases hfa : f a with
      | none => simpa [List.filterMap_cons, hfa] using ih has
      | some x =>
          rw [List.filterMap_cons, hfa]
          refine List.pairwise_cons.mpr ⟨?_, ih has⟩
          intro y hy
          rcases List.mem_filterMap.mp hy with ⟨b, hb, hfb⟩
          exact hf a b x y hfa hfb (ha b hb)

/-- The ordering asserted by the original claim on the returned suggestions:
priority descending with ties broken by earliest `added_at`. -/
def suggRel (a b : ALSuggestion) : Prop :=
  b.priority_score < a.priority_score ∨
    (a.priority_score = b.priority_score ∧ a.added_at ≤ b.added_at)

/-- Counterexample for C6 as stated: the query orders only by
`priority_score` and has no secondary sort key, so the backend may return two
equal-priority pending rows newest-first; that order is admissible for the
query (`isPriorityDescOrdering` holds) and under it the returned suggestions
are not tie-broken by earliest `added_at`. -/
theorem c6_counterexample :
    isPriorityDescOrdering
      (queueFilter (3/10)
        [⟨1, 10, 1/2, 3/5, "uncertainty", [], "pending", 0, none⟩,
         ⟨2, 11, 2/5, 3/5, "uncertainty", [], "pending", 1, none⟩])
      [⟨2, 11, 2/5, 3/5, "uncertainty", [], "pending", 1, none⟩,
       ⟨1, 10, 1/2, 3/5, "uncertainty", [], "pending", 0, none⟩] ∧
    ¬ (get_active_learning_suggestions
        [⟨2, 11, 2/5, 3/5, "uncertainty", [], "pending", 1, none⟩,
         ⟨1, 10, 1/2, 3/5, "uncertainty", [], "pending", 0, none⟩]
        [⟨10, "img10"⟩, ⟨11, "img11"⟩] 20).Pairwise suggRel := by
  refine ⟨⟨?_, ?_⟩, ?_⟩
  · have hq : queueFilter (3/10)
        [⟨1, 10, 1/2, 3/5, "uncertainty", [], "pending", 0, none⟩,
         ⟨2, 11, 2/5, 3/5, "uncertainty", [], "pending", 1, none⟩] =
        [⟨1, 10, 1/2, 3/5, "uncertainty", [], "pending", 0, none⟩,
         ⟨2, 11, 2/5, 3/5, "uncertainty", [], "pending", 1, none⟩] := by
      norm_num [queueFilter, List.filter]
    rw [hq]
    exact List.Perm.swap _ _ _
  · refine List.pairwise_cons.mpr ⟨?_, List.pairwise_singleton _ _⟩
    intro b hb
    rw [List.mem_singleton.mp hb]
  · have hout : get_active_learning_suggestions
        [⟨2, 11, 2/5, 3/5, "uncertainty", [], "pending", 1, none⟩,
         ⟨1, 10, 1/2, 3/5, "uncertainty", [], "pending", 0, none⟩]
        [⟨10, "img10"⟩, ⟨11, "img11"⟩] 20 =
        [⟨2, 11, "img11", 2/5, 3/5, "uncertainty", [], "pending", 1⟩,
         ⟨1, 10, "img10", 1/2, 3/5, "uncertainty", [], "pending", 0⟩] := rfl
    rw [hout]
    intro h
    have h2 := (List.pairwise_cons.mp h).1 _ (List.mem_singleton.mpr rfl)
    rcases h2 with hlt | ⟨heq, hle⟩
    · exact absurd hlt (by norm_num)
    · exact absurd hle (by norm_num)

/-- Claim C6 as amended: for every `min_uncertainty` and `limit`, and every
row order the backend may return for the query (the source orders only by
`priority_score` descending, so any priority-descending permutation of the
filtered rows is admissible), the route returns only candidates with status
`pending` and `uncertainty_score >= min_uncertainty`, at most `limit` of
them, ordered by `priority_score` descending; the relative order of
equal-priority candidates is unspecified, so no earliest-`added_at`
tie-break is guaranteed. -/
theorem c6_amended (queue ordered : List ALCandidate) (analyses : List AnalysisRow)
    (limit : ℕ) (min_uncertainty : ℚ)
    (hord : isPriorityDescOrdering (queueFilter min_uncertainty queue) ordered) :
    (∀ s ∈ get_active_learning_suggestions ordered analyses limit,
        s.status = "pending" ∧ min_uncertainty ≤ s.uncertainty_score) ∧
    (get_active_learning_suggestions ordered analyses limit).length ≤ limit ∧
    (get_active_learning_suggestions ordered analyses limit).Pairwise
      (fun a b => b.priority_score ≤ a.priority_score) := by
  obtain ⟨hperm, hsorted⟩ := hord
  refine ⟨?_, ?_, ?_⟩
  · intro s hs
    rcases List.mem_filterMap.mp hs with ⟨c, hc, hfc⟩
    have hcord : c ∈ ordered := List.mem_of_mem_take hc
    have hcf : c ∈ queue.filter
        (fun c => c.status == "pending" && decide (min_uncertainty ≤ c.uncertainty_score)) :=
      hperm.mem_iff.mpr hcord
    have hprops := List.of_mem_filter hcf
    simp only [Bool.and_eq_true, beq_iff_eq, decide_eq_true_eq] at hprops
    rcases Option.map_eq_some'.mp hfc with ⟨a, hfa, rfl⟩
    exact ⟨hprops.1, hprops.2⟩
  · calc (get_active_learning_suggestions ordered analyses limit).length
        ≤ (ordered.take limit).length := List.length_filterMap_le _ _
      _ ≤ limit := by
          rw [List.length_take]
          exact min_le_left _ _
  · have htake : (ordered.take limit).Pairwise
        (fun a b => b.priority_score ≤ a.priority_score) :=
      List.Pairwise.sublist (List.take_sublist _ _) hsorted
    refine pairwise_filterMap_transport ?_ htake
    intro a b x y hfa hfb hab
    rcases Option.map_eq_some'.mp hfa with ⟨ra, hra, rfl⟩
    rcases Option.map_eq_some'.mp hfb with ⟨rb, hrb, rfl⟩
    exact hab

/-- Witness for C6 (amended) on a concrete two-row queue with an admissible
backend ordering. -/
theorem c6_witness :
    (get_active_learning_suggestions
      [⟨1, 10, 1/2, 3/5, "uncertainty", [], "pending", 0, none⟩,
       ⟨2, 11, 2/5, 1/2, "uncertainty", [], "pending", 1, none⟩]
      [⟨10, "img10"⟩, ⟨11, "img11"⟩] 20).length ≤ 20 :=
  (c6_amended
    [⟨1, 10, 1/2, 3/5, "uncertainty", [], "pending", 0, none⟩,
     ⟨2, 11, 2/5, 1/2, "uncertainty", [], "pending", 1, none⟩]
    [⟨1, 10, 1/2, 3/5, "uncertainty", [], "pending", 0, none⟩,
     ⟨2, 11, 2/5, 1/2, "uncertainty", [], "pending", 1, none⟩]
    [⟨10, "img10"⟩, ⟨11, "img11"⟩] 20 (3/10)
    ⟨by
      have hq : queueFilter (3/10)
          [⟨1, 10, 1/2, 3/5, "uncertainty", [], "pending", 0, none⟩,
           ⟨2, 11, 2/5, 1/2, "uncertainty", [], "pending", 1, none⟩] =
          [⟨1, 10, 1/2, 3/5, "uncertainty", [], "pending", 0, none⟩,
           ⟨2, 11, 2/5, 1/2, "uncertainty", [], "pending", 1, none⟩] := by
        norm_num [queueFilter, List.filter]
      rw [hq], by
      refine List.pairwise_cons.mpr ⟨?_, List.pairwise_singleton _ _⟩
      intro b hb
      rw [List.mem_singleton.mp hb]
      norm_num⟩).2.1

end RadiKal

namespace RadiKal

/-- One `custom_defect_types` row (`CustomDefectType` in `db/models.py`). -/
structure DefectType where
  id : ℕ
  name : String
  code : String
  is_active : Bool
  requires_retraining : Bool
  min_samples_required : ℕ
  current_sample_count : ℕ
deriving DecidableEq

/-- One `training_samples` row (`TrainingSample` in `db/models.py`); the JSON
payload of the `annotations` column is kept opaque as `ann_payload`. -/
structure SampleRow where
  id : ℕ
  defect_type_id : ℕ
  image_path : String
  image_id : String
  ann_payload : String
  annotation_format : String
  source : String
  quality_score : ℚ
  labeled_by : String
deriving DecidableEq

/-- One `model_versions` row (`ModelVersion` in `db/models.py`); timestamps
are abstract day counts, and the `precision`/`recall` columns appear as
`val_precision`/`val_recall` because Lean reserves those identifiers. -/
structure MV where
  id : ℕ
  version_number : String
  model_path : String
  classes : List String
  num_classes : ℕ
  is_active : Bool
  deployment_status : String
  training_dataset_id : Option ℕ
  epochs_trained : Option ℕ
  final_accuracy : Option ℚ
  final_map50 : Option ℚ
  val_precision : Option ℚ
  val_recall : Option ℚ
  f1_score : Option ℚ
  created_at : ℕ
  deployed_at : Option ℕ
deriving DecidableEq

/-- One `training_datasets` row (`TrainingDataset` in `db/models.py`), the
persisted dataset snapshot. -/
structure DatasetRow where
  id : ℕ
  name : String
  dataset_path : String
  total_images : ℕ
  train_images : ℕ
  val_images : ℕ
  test_images : ℕ
  class_distribution_train : List (String × ℕ)
  class_distribution_val : List (String × ℕ)
  class_distribution_test : List (String × ℕ)
  includes_custom_types : Bool
  custom_types_included : List ℕ
  created_by : String
deriving DecidableEq

/-- One `training_jobs` row (`TrainingJob` in `db/models.py`). -/
structure JobRow where
  id : ℕ
  model_version_id : ℕ
  status : String
  total_epochs : ℕ
  current_epoch : ℕ
  progress_percent : ℚ
  latest_accuracy : Option ℚ
  error_message : Option String
  started_at : Option ℕ
  completed_at : Option ℕ
deriving DecidableEq

/-- The persisted state the retraining and deployment code operates on: each
table is a list of rows in insertion order, with autoincrement counters for
the ids the database would assign. -/
structure DBState where
  defect_types : List DefectType
  samples : List SampleRow
  model_versions : List MV
  datasets : List DatasetRow
  jobs : List JobRow
  queue : List ALCandidate
  analyses : List AnalysisRow
  next_dataset_id : ℕ
  next_mv_id : ℕ
  next_job_id : ℕ
  next_sample_id : ℕ
deriving DecidableEq

/-- Mutation of the row returned by `query(...).filter(p).first()`: apply `f`
to the first list element satisfying `p`, keep everything else. -/
def updateFirst {α : Type} (p : α → Bool) (f : α → α) : List α → List α
  | [] => []
  | a :: as => if p a then f a :: as else a :: updateFirst p f as

/-- Number of model versions currently flagged active. -/
def activeCount (st : DBState) : ℕ :=
  st.model_versions.countP (fun v => v.is_active)

/-- Return shape of `RetrainingPipeline.deploy_model` (a result dict, not an
exception). -/
structure DeployOutcome where
  success : Bool
  error : Option String
  model_version : Option String
  previous_model : Option String
deriving DecidableEq

/-- `RetrainingPipeline.deploy_model`: refuse a version whose
`deployment_status` is not `trained` unless `force`; otherwise deactivate and
archive the first currently active version, activate the target
(`deployed`, `deployed_at := now`), and clear `requires_retraining` on every
defect type listed in the target's dataset snapshot. -/
def deploy_model (st : DBState) (mv_id : ℕ) (force : Bool) (now : ℕ) :
    DBState × DeployOutcome :=
  match st.model_versions.find? (fun v => v.id == mv_id) with
  | none =>
      (st, { success := false, error := some "Model version not found",
             model_version := none, previous_model := none })
  | some mv =>
      if mv.deployment_status ≠ "trained" ∧ force = false then
        (st, { success := false,
               error := some ("Model status is " ++ mv.deployment_status ++ ", must be trained"),
               model_version := none, previous_model := none })
      else
        let current_active := st.model_versions.find? (fun v => v.is_active)
        let vs1 := updateFirst (fun v => v.is_active)
          (fun v => { v with is_active := false, deployment_status := "archived" })
          st.model_versions
        let vs2 := updateFirst (fun v => v.id == mv_id)
          (fun v => { v with is_active := true, deployment_status := "deployed",
                             deployed_at := some now }) vs1
        let defects1 :=
          match mv.training_dataset_id with
          | none => st.defect_types
          | some did =>
              match st.datasets.find? (fun d => d.id == did) with
              | none => st.defect_types
              | some ds =>
                  ds.custom_types_included.foldl
                    (fun acc defect_id =>
                      updateFirst (fun dt => dt.id == defect_id)
                        (fun dt => { dt with requires_retraining := false }) acc)
                    st.defect_types
        ({ st with model_versions := vs2, defect_types := defects1 },
         { success := true, error := none,
           model_version := some mv.version_number,
           previous_model := current_active.map (fun v => v.version_number) })

/-- Route `deploy_model_version` (`POST /models/deploy`): 404 when the version
is missing, 400 when its status is not `trained`, otherwise deactivate the
first active version (without archiving it) and activate the target. -/
def deploy_model_version (st : DBState) (model_version_id : ℕ) (now : ℕ) :
    DBState × Except String String :=
  match st.model_versions.find? (fun v => v.id == model_version_id) with
  | none => (st, .error "Model version not found")
  | some new_model =>
      if new_model.deployment_status ≠ "trained" then
        (st, .error ("Model status is " ++ new_model.deployment_status ++ ", must be trained"))
      else
        let vs1 := updateFirst (fun v => v.is_active)
          (fun v => { v with is_active := false }) st.model_versions
        let vs2 := updateFirst (fun v => v.id == model_version_id)
          (fun v => { v with is_active := true, deployment_status := "deployed",
                             deployed_at := some now }) vs1
        ({ st with model_versions := vs2 },
         .ok ("Model " ++ new_model.version_number ++ " deployed successfully"))

/-- Route `rollback_model_version` (`POST /models/rollback`): 404 when the
target is missing, 400 unless its status is `deployed` or `archived`,
otherwise deactivate and archive the first active version and reactivate the
target. -/
def rollback_model_version (st : DBState) (target_version_id : ℕ) (now : ℕ) :
    DBState × Except String String :=
  match st.model_versions.find? (fun v => v.id == target_version_id) with
  | none => (st, .error "Target model version not found")
  | some target_model =>
      if target_model.deployment_status ≠ "deployed" ∧
          target_model.deployment_status ≠ "archived" then
        (st, .error "Can only rollback to previously deployed models")
      else
        let vs1 := updateFirst (fun v => v.is_active)
          (fun v => { v with is_active := false, deployment_status := "archived" })
          st.model_versions
        let vs2 := updateFirst (fun v => v.id == target_version_id)
          (fun v => { v with is_active := true, deployment_status := "deployed",
                             deployed_at := some now }) vs1
        ({ st with model_versions := vs2 },
         .ok ("Rolled back to model " ++ target_model.version_number))

end RadiKal

namespace RadiKal

lemma countP_updateFirst_le {α : Type} (p q : α → Bool) (f : α → α) (l : List α) :
    (updateFirst q f l).countP p ≤ l.countP p + 1 := by
  induction l with
  | nil => simp [updateFirst]
  | cons a as ih =>
      by_cases h : q a
      · simp only [updateFirst, if_pos h, List.countP_cons]
        by_cases hp : p (f a) <;> by_cases hq : p a <;> simp [hp, hq] <;> omega
      · simp only [updateFirst, if_neg h, List.countP_cons]
        by_cases hq : p a <;> simp [hq] <;> omega

lemma countP_updateFirst_off {α : Type} (p : α → Bool) (f : α → α) (l : List α)
    (hf : ∀ a, p (f a) = false) (h : l.countP p ≤ 1) :
    (updateFirst p f l).countP p = 0 := by
  induction l with
  | nil => simp [updateFirst]
  | cons a as ih =>
      by_cases ha : p a
      · have has : as.countP p = 0 := by
          simp only [List.countP_cons, ha, if_pos] at h
          omega
        simp only [updateFirst, if_pos ha, List.countP_cons, hf a]
        simpa using has
      · have has : as.countP p ≤ 1 := by
          simp only [List.countP_cons, ha] at h
          simpa using h
        simp only [updateFirst, if_neg ha, List.countP_cons, ha]
        have h0 := ih has
        simp only [List.countP_eq_zero] at h0
        simp [Bool.eq_false_iff.mpr ha, h0]
        exact fun x hx => Bool.eq_false_iff.mpr (h0 x hx)

lemma active_swap_le (vs : List MV) (g : MV → MV) (hg : ∀ v, (g v).is_active = false)
    (q : MV → Bool) (h2 : MV → MV) (h : vs.countP (fun v => v.is_active) ≤ 1) :
    (updateFirst q h2 (updateFirst (fun v => v.is_active) g vs)).countP
      (fun v => v.is_active) ≤ 1 := by
  have h0 := countP_updateFirst_off (fun v => v.is_active) g vs hg h
  calc (updateFirst q h2 (updateFirst (fun v => v.is_active) g vs)).countP
        (fun v => v.is_active)
      ≤ (updateFirst (fun v => v.is_active) g vs).countP (fun v => v.is_active) + 1 :=
        countP_updateFirst_le _ _ _ _
    _ = 1 := by rw [h0]

lemma activeCount_deploy_model_le (st : DBState) (mv_id : ℕ) (force : Bool) (now : ℕ)
    (h : activeCount st ≤ 1) : activeCount (deploy_model st mv_id force now).1 ≤ 1 := by
  unfold activeCount at h ⊢
  cases hfind : st.model_versions.find? (fun v => v.id == mv_id) with
  | none => simpa [deploy_model, hfind] using h
  | some mv =>
      by_cases hc : mv.deployment_status ≠ "trained" ∧ force = false
      · simpa [deploy_model, hfind, hc] using h
      · simp only [deploy_model, hfind, if_neg hc]
        exact active_swap_le _ _ (fun v => rfl) _ _ h

lemma activeCount_deploy_model_version_le (st : DBState) (mv_id : ℕ) (now : ℕ)
    (h : activeCount st ≤ 1) : activeCount (deploy_model_version st mv_id now).1 ≤ 1 := by
  unfold activeCount at h ⊢
  cases hfind : st.model_versions.find? (fun v => v.id == mv_id) with
  | none => simpa [deploy_model_version, hfind] using h
  | some mv =>
      by_cases hc : mv.deployment_status ≠ "trained"
      · simpa [deploy_model_version, hfind, hc] using h
      · simp only [deploy_model_version, hfind, if_neg hc]
        exact active_swap_le _ _ (fun v => rfl) _ _ h

lemma activeCount_rollback_le (st : DBState) (mv_id : ℕ) (now : ℕ)
    (h : activeCount st ≤ 1) : activeCount (rollback_model_version st mv_id now).1 ≤ 1 := by
  unfold activeCount at h ⊢
  cases hfind : st.model_versions.find? (fun v => v.id == mv_id) with
  | none => simpa [rollback_model_version, hfind] using h
  | some mv =>
      by_cases hc : mv.deployment_status ≠ "deployed" ∧ mv.deployment_status ≠ "archived"
      · simpa [rollback_model_version, hfind, hc] using h
      · simp only [rollback_model_version, hfind, if_neg hc]
        exact active_swap_le _ _ (fun v => rfl) _ _ h

/-- One deployment-manager operation: a pipeline deploy, a route deploy, or a
route rollback. -/
inductive DeployOp where
  | deployPipeline (mv_id : ℕ) (force : Bool)
  | deployRoute (mv_id : ℕ)
  | rollback (mv_id : ℕ)
deriving DecidableEq

/-- State reached after one deployment-manager operation. -/
def applyOp (now : ℕ) (st : DBState) : DeployOp → DBState
  | .deployPipeline mv_id force => (deploy_model st mv_id force now).1
  | .deployRoute mv_id => (deploy_model_version st mv_id now).1
  | .rollback mv_id => (rollback_model_version st mv_id now).1

/-- State reached after a sequence of deployment-manager operations. -/
def runOps (now : ℕ) (st : DBState) (ops : List DeployOp) : DBState :=
  ops.foldl (applyOp now) st

lemma activeCount_applyOp_le (now : ℕ) (st : DBState) (op : DeployOp)
    (h : activeCount st ≤ 1) : activeCount (applyOp now st op) ≤ 1 := by
  cases op with
  | deployPipeline mv_id force => exact activeCount_deploy_model_le st mv_id force now h
  | deployRoute mv_id => exact activeCount_deploy_model_version_le st mv_id now h
  | rollback mv_id => exact activeCount_rollback_le st mv_id now h

lemma activeCount_runOps_le (now : ℕ) (ops : List DeployOp) :
    ∀ st : DBState, activeCount st ≤ 1 → activeCount (runOps now st ops) ≤ 1 := by
  induction ops with
  | nil => exact fun st h => h
  | cons op rest ih =>
      intro st h
      exact ih (applyOp now st op) (activeCount_applyOp_le now st op h)

/-- Claim C1: starting from a state with no active model version, after every
prefix of any sequence of deploy (pipeline or route) and rollback operations
at most one `ModelVersion` has `is_active = true`: each operation first
deactivates the currently active version (if any) and then activates exactly
one target. -/
theorem c1_single_active_invariant (now : ℕ) (st0 : DBState)
    (h0 : activeCount st0 = 0) (ops : List DeployOp) :
    ∀ n : ℕ, activeCount (runOps now st0 (ops.take n)) ≤ 1 := by
  intro n
  exact activeCount_runOps_le now (ops.take n) st0 (by omega)

/-- Witness for C1: a concrete two-version state with no active version, a
pipeline deploy (forced), a rollback and a route deploy. -/
theorem c1_witness :
    activeCount (runOps 7
      { defect_types := [], samples := [],
        model_versions :=
          [{ id := 1, version_number := "v1.0.0", model_path := "a.pt", classes := [],
             num_classes := 0, is_active := false, deployment_status := "archived",
             training_dataset_id := none, epochs_trained := none, final_accuracy := none,
             final_map50 := none, val_precision := none, val_recall := none,
             f1_score := none, created_at := 0, deployed_at := none },
           { id := 2, version_number := "v1.1.0", model_path := "b.pt", classes := [],
             num_classes := 0, is_active := false, deployment_status := "trained",
             training_dataset_id := none, epochs_trained := none, final_accuracy := none,
             final_map50 := none, val_precision := none, val_recall := none,
             f1_score := none, created_at := 3, deployed_at := none }],
        datasets := [], jobs := [], queue := [], analyses := [],
        next_dataset_id := 1, next_mv_id := 3, next_job_id := 1, next_sample_id := 1 }
      ([.deployRoute 2, .rollback 1, .deployPipeline 2 true].take 3)) ≤ 1 :=
  c1_single_active_invariant 7 _ (by decide) _ 3

/-- Claim C2: deploying a model version whose `deployment_status` is not
`trained` with `force = false` fails — the pipeline `deploy_model` returns a
failure result and the route raises 400 — and leaves the whole persisted
state unchanged (in particular no `is_active`, `deployment_status` or
`deployed_at` is modified and no `requires_retraining` flag is cleared). -/
theorem c2_deploy_requires_trained (st : DBState) (now mv_id : ℕ) (v : MV)
    (hfind : st.model_versions.find? (fun w => w.id == mv_id) = some v)
    (hst : v.deployment_status ≠ "trained") :
    (deploy_model st mv_id false now).1 = st ∧
    (deploy_model st mv_id false now).2.success = false ∧
    (deploy_model_version st mv_id now).1 = st ∧
    (∃ e, (deploy_model_version st mv_id now).2 = .error e) := by
  refine ⟨?_, ?_, ?_, ?_⟩ <;>
    simp [deploy_model, deploy_model_version, hfind, hst]

/-- Witness for C2 at a concrete one-version state whose only version is
still `training`. -/
theorem c2_witness :
    (deploy_model
      { defect_types := [], samples := [],
        model_versions :=
          [{ id := 1, version_number := "v1.0.0", model_path := "", classes := [],
             num_classes := 0, is_active := false, deployment_status := "training",
             training_dataset_id := none, epochs_trained := none, final_accuracy := none,
             final_map50 := none, val_precision := none, val_recall := none,
             f1_score := none, created_at := 0, deployed_at := none }],
        datasets := [], jobs := [], queue := [], analyses := [],
        next_dataset_id := 1, next_mv_id := 2, next_job_id := 1, next_sample_id := 1 }
      1 false 5).1 =
      { defect_types := [], samples := [],
        model_versions :=
          [{ id := 1, version_number := "v1.0.0", model_path := "", classes := [],
             num_classes := 0, is_active := false, deployment_status := "training",
             training_dataset_id := none, epochs_trained := none, final_accuracy := none,
             final_map50 := none, val_precision := none, val_recall := none,
             f1_score := none, created_at := 0, deployed_at := none }],
        datasets := [], jobs := [], queue := [], analyses := [],
        next_dataset_id := 1, next_mv_id := 2, next_job_id := 1, next_sample_id := 1 } :=
  (c2_deploy_requires_trained _ 5 1
    { id := 1, version_number := "v1.0.0", model_path := "", classes := [],
      num_classes := 0, is_active := false, deployment_status := "training",
      training_dataset_id := none, epochs_trained := none, final_accuracy := none,
      final_map50 := none, val_precision := none, val_recall := none,
      f1_score := none, created_at := 0, deployed_at := none }
    (by decide) (by decide)).1

end RadiKal

namespace RadiKal

/-- Request body `TrainingSampleCreate` of the accept route. -/
structure TrainingSampleCreate where
  defect_type_id : ℕ
  image_path : String
  image_id : String
  ann_payload : String
  annotation_format : String
deriving DecidableEq

/-- Route `accept_active_learning_suggestion`
(`POST /active-learning/{suggestion_id}/accept`): 404 when the suggestion is
missing; otherwise create one `TrainingSample` with source `active_learning`
and quality `1 - uncertainty_score`, mark the suggestion `labeled`, and — only
if the referenced defect type exists — increment its sample count and set
`requires_retraining`; a missing defect type is silently skipped. -/
def accept_active_learning_suggestion (st : DBState) (suggestion_id : ℕ)
    (sample : TrainingSampleCreate) (now : ℕ) : DBState × Except String String :=
  match st.queue.find? (fun s => s.id == suggestion_id) with
  | none => (st, .error "Active learning suggestion not found")
  | some suggestion =>
      let db_sample : SampleRow :=
        { id := st.next_sample_id,
          defect_type_id := sample.defect_type_id,
          image_path := sample.image_path,
          image_id := sample.image_id,
          ann_payload := sample.ann_payload,
          annotation_format := sample.annotation_format,
          source := "active_learning",
          quality_score := 1 - suggestion.uncertainty_score,
          labeled_by := "system" }
      let queue1 := updateFirst (fun s => s.id == suggestion_id)
        (fun s => { s with status := "labeled", reviewed_at := some now }) st.queue
      let defects1 := updateFirst (fun dt => dt.id == sample.defect_type_id)
        (fun dt => { dt with current_sample_count := dt.current_sample_count + 1,
                             requires_retraining := true }) st.defect_types
      ({ st with samples := st.samples ++ [db_sample],
                 queue := queue1,
                 defect_types := defects1,
                 next_sample_id := st.next_sample_id + 1 },
       .ok "Training sample created from active learning suggestion")

lemma updateFirst_of_find?_none {α : Type} {p : α → Bool} {l : List α} (f : α → α)
    (h : l.find? p = none) : updateFirst p f l = l := by
  induction l with
  | nil => rfl
  | cons a as ih =>
      rw [List.find?_cons] at h
      cases ha : p a with
      | true => simp [ha] at h
      | false =>
          simp only [ha] at h
          simp [updateFirst, ha, ih h]

lemma find?_updateFirst_some {α : Type} {p : α → Bool} {l : List α} {a : α} (f : α → α)
    (hpf : ∀ x, p x = true → p (f x) = true)
    (h : l.find? p = some a) : (updateFirst p f l).find? p = some (f a) := by
  induction l with
  | nil => simp at h
  | cons b bs ih =>
      rw [List.find?_cons] at h
      cases hb : p b with
      | true =>
          simp only [hb] at h
          cases h
          simp [updateFirst, hb, List.find?_cons, hpf _ hb]
      | false =>
          simp only [hb] at h
          simp [updateFirst, hb, List.find?_cons, ih h]

/-- Counterexample for C5 as stated: accepting a suggestion whose target
`DefectCategory` does not exist does not fail with `NotFoundError` — the call
succeeds and a training sample is created anyway. -/
theorem c5_counterexample :
    (accept_active_learning_suggestion
      { defect_types := [], samples := [],
        model_versions := [], datasets := [], jobs := [],
        queue := [{ id := 1, analysis_id := 10, uncertainty_score := 2/5,
                    priority_score := 3/5, selection_method := "uncertainty",
                    suggested_defect_types := [], status := "pending",
                    added_at := 0, reviewed_at := none }],
        analyses := [], next_dataset_id := 1, next_mv_id := 1, next_job_id := 1,
        next_sample_id := 1 }
      1 { defect_type_id := 99, image_path := "img.png", image_id := "im1",
          ann_payload := "a", annotation_format := "yolo" } 4).2 =
      .ok "Training sample created from active learning suggestion" ∧
    ((accept_active_learning_suggestion
      { defect_types := [], samples := [],
        model_versions := [], datasets := [], jobs := [],
        queue := [{ id := 1, analysis_id := 10, uncertainty_score := 2/5,
                    priority_score := 3/5, selection_method := "uncertainty",
                    suggested_defect_types := [], status := "pending",
                    added_at := 0, reviewed_at := none }],
        analyses := [], next_dataset_id := 1, next_mv_id := 1, next_job_id := 1,
        next_sample_id := 1 }
      1 { defect_type_id := 99, image_path := "img.png", image_id := "im1",
          ann_payload := "a", annotation_format := "yolo" } 4).1.samples.length = 1) := by
  exact ⟨rfl, rfl⟩

/-- Claim C5 as amended: if the referenced candidate does not exist the accept
call fails (404 `NotFoundError`) and the persisted state is unchanged; if the
candidate exists but the referenced `DefectCategory` does not, the call
nevertheless succeeds — exactly one `LabeledSample` is created (source
`active_learning`, quality `1 - uncertainty_score`) and the candidate is
marked `labeled`, while no sample count is incremented and no
`requires_retraining` flag is set. -/
theorem c5_amended (st : DBState) (sid : ℕ) (sample : TrainingSampleCreate) (now : ℕ) :
    (st.queue.find? (fun s => s.id == sid) = none →
      accept_active_learning_suggestion st sid sample now =
        (st, .error "Active learning suggestion not found")) ∧
    (∀ sug, st.queue.find? (fun s => s.id == sid) = some sug →
      st.defect_types.find? (fun dt => dt.id == sample.defect_type_id) = none →
      (accept_active_learning_suggestion st sid sample now).1.samples =
        st.samples ++
          [{ id := st.next_sample_id,
             defect_type_id := sample.defect_type_id,
             image_path := sample.image_path,
             image_id := sample.image_id,
             ann_payload := sample.ann_payload,
             annotation_format := sample.annotation_format,
             source := "active_learning",
             quality_score := 1 - sug.uncertainty_score,
             labeled_by := "system" }] ∧
      (accept_active_learning_suggestion st sid sample now).1.defect_types =
        st.defect_types ∧
      (accept_active_learning_suggestion st sid sample now).1.queue.find?
          (fun s => s.id == sid) =
        some { sug with status := "labeled", reviewed_at := some now } ∧
      (accept_active_learning_suggestion st sid sample now).2 =
        .ok "Training sample created from active learning suggestion") := by
  constructor
  · intro h
    simp [accept_active_learning_suggestion, h]
  · intro sug hsug hdt
    refine ⟨?_, ?_, ?_, ?_⟩
    · simp [accept_active_learning_suggestion, hsug]
    · simp [accept_active_learning_suggestion, hsug,
        updateFirst_of_find?_none _ hdt]
    · simp only [accept_active_learning_suggestion, hsug]
      exact find?_updateFirst_some _ (fun x hx => hx) hsug
    · simp [accept_active_learning_suggestion, hsug]

/-- Witness for C5 (amended) at a concrete state: a missing candidate gives
the 404 error and an unchanged state. -/
theorem c5_witness :
    accept_active_learning_suggestion
      { defect_types := [], samples := [], model_versions := [], datasets := [],
        jobs := [], queue := [], analyses := [], next_dataset_id := 1,
        next_mv_id := 1, next_job_id := 1, next_sample_id := 1 }
      1 { defect_type_id := 1, image_path := "p", image_id := "i",
          ann_payload := "a", annotation_format := "yolo" } 0 =
      ({ defect_types := [], samples := [], model_versions := [], datasets := [],
         jobs := [], queue := [], analyses := [], next_dataset_id := 1,
         next_mv_id := 1, next_job_id := 1, next_sample_id := 1 },
       .error "Active learning suggestion not found") :=
  (c5_amended _ 1 _ 0).1 (by decide)

end RadiKal

namespace RadiKal

/-- Configuration of `RetrainingPipeline.__init__` (defaults:
`min_samples_per_class = 50`, `validation_threshold = 0.85`). -/
structure PipelineConfig where
  base_model_path : String
  min_samples_per_class : ℕ
  validation_threshold : ℚ
deriving DecidableEq

/-- Result of `check_retraining_needed`. -/
structure CheckResult where
  should_retrain : Bool
  reasons : List String
  defects_needing_retraining : List String
  defects_ready : List String
deriving DecidableEq

/-- `RetrainingPipeline.check_retraining_needed`: the OR of four independent
triggers — pending `requires_retraining` flags on active defect types, the
same set further restricted to threshold-ready counts, a 30-day-old active
model, and more than 10 percent sample growth over the active model's dataset
snapshot.  `now` and `created_at` are day counts, so the source's
`(utcnow() - created_at).days` is `now - created_at`. -/
def check_retraining_needed (st : DBState) (now : ℕ) : CheckResult :=
  let defects_needing := st.defect_types.filter
    (fun d => d.requires_retraining && d.is_active)
  let r1 := decide (defects_needing ≠ [])
  let defects_ready := st.defect_types.filter
    (fun d => d.is_active && decide (d.min_samples_required ≤ d.current_sample_count) &&
      d.requires_retraining)
  let r2 := decide (defects_ready ≠ [])
  let active_model := st.model_versions.find? (fun v => v.is_active)
  let r3 := match active_model with
    | none => false
    | some m => decide (30 ≤ now - m.created_at)
  let r4 := match active_model with
    | none => false
    | some m =>
        match m.training_dataset_id with
        | none => false
        | some did =>
            match st.datasets.find? (fun d => d.id == did) with
            | none => false
            | some old =>
                decide ((old.total_images : ℚ) * (11/10) < (st.samples.length : ℚ))
  { should_retrain := r1 || r2 || r3 || r4,
    reasons :=
      (if r1 then [toString defects_needing.length ++
        " custom defect types need retraining"] else []) ++
      (if r2 then [toString defects_ready.length ++
        " defect types have sufficient samples for training"] else []) ++
      (if r3 then ["Model is older than the 30 day threshold"] else []) ++
      (if r4 then ["10 percent more samples available"] else []),
    defects_needing_retraining := defects_needing.map (fun d => d.name),
    defects_ready := defects_ready.map (fun d => d.name) }

/-- One entry of the `training_samples` list handed to
`TransferLearner.prepare_dataset`. -/
structure TLSample where
  image_path : String
  class_name : String
  quality_score : ℚ
deriving DecidableEq

/-- Return dict of `TransferLearner.prepare_dataset`. -/
structure TLDatasetInfo where
  dataset_path : String
  yaml_path : String
  classes : List String
  n_classes : ℕ
  train_count : ℕ
  val_count : ℕ
  test_count : ℕ
  class_distribution_train : List (String × ℕ)
  class_distribution_val : List (String × ℕ)
  class_distribution_test : List (String × ℕ)
deriving DecidableEq

/-- Per-class counts of one split as built by the copy loop of
`prepare_dataset`: a sample is counted only when its class is known and its
image file exists; classes with no copied samples do not appear (dict keys
are modelled in class-list order rather than first-appearance order). -/
def splitCounts (all_classes : List String) (fileExists : String → Bool)
    (samples : List TLSample) : List (String × ℕ) :=
  (all_classes.map (fun c =>
    (c, (samples.filter (fun s => s.class_name == c && fileExists s.image_path)).length))).filter
    (fun p => p.2 ≠ 0)

/-- `TransferLearner.prepare_dataset`: shuffle (`np.random.shuffle`, passed in
as the oracle `shuffle`), split at `int(n * 0.7)` and `int(n * 0.2)`, copy
images that exist into the split directories, and report per-split counts.
It contains no emptiness check and never raises on zero samples. -/
def tl_prepare_dataset (shuffle : List TLSample → List TLSample)
    (fileExists : String → Bool) (training_samples : List TLSample)
    (base_classes custom_classes : List String) (output_path : String) : TLDatasetInfo :=
  let all_classes := base_classes ++ custom_classes
  let shuffled := shuffle training_samples
  let n_total := shuffled.length
  let n_train := (((n_total : ℚ) * (7/10)).floor).toNat
  let n_val := (((n_total : ℚ) * (2/10)).floor).toNat
  let train_samples := shuffled.take n_train
  let val_samples := (shuffled.drop n_train).take n_val
  let test_samples := shuffled.drop (n_train + n_val)
  let ct := splitCounts all_classes fileExists train_samples
  let cv := splitCounts all_classes fileExists val_samples
  let cs := splitCounts all_classes fileExists test_samples
  { dataset_path := output_path,
    yaml_path := output_path ++ "/data.yaml",
    classes := all_classes,
    n_classes := all_classes.length,
    train_count := (ct.map (fun p => p.2)).sum,
    val_count := (cv.map (fun p => p.2)).sum,
    test_count := (cs.map (fun p => p.2)).sum,
    class_distribution_train := ct,
    class_distribution_val := cv,
    class_distribution_test := cs }

/-- Return value of `prepare_training_dataset`: the collaborator's dataset
info plus the id of the persisted `TrainingDataset` row. -/
structure DatasetInfo extends TLDatasetInfo where
  dataset_id : ℕ
deriving DecidableEq

/-- The training-sample list gathered by `prepare_training_dataset`: for every
active defect type, all of its samples labelled with the defect's code. -/
def gatherTrainingSamples (st : DBState) : List TLSample :=
  ((st.defect_types.filter (fun d => d.is_active)).map (fun d =>
    (st.samples.filter (fun s => s.defect_type_id == d.id)).map (fun s =>
      { image_path := s.image_path, class_name := d.code,
        quality_score := s.quality_score }))).flatten

/-- `RetrainingPipeline.prepare_training_dataset`: gather the samples of all
active defect types, call the transfer learner, and persist a
`TrainingDataset` row whose `total_images` is the sum of the three split
counts.  Undersized classes only log a warning; there is no
`InsufficientDataError` path and the snapshot row is appended
unconditionally. -/
def prepare_training_dataset (st : DBState) (shuffle : List TLSample → List TLSample)
    (fileExists : String → Bool) (dataset_name : String)
    (include_base_classes : Bool) : DBState × DatasetInfo :=
  let custom_defects := st.defect_types.filter (fun d => d.is_active)
  let base_classes := if include_base_classes then ["LP", "PO", "CR", "ND"] else []
  let custom_classes := custom_defects.map (fun d => d.code)
  let training_samples := gatherTrainingSamples st
  let info := tl_prepare_dataset shuffle fileExists training_samples base_classes
    custom_classes ("models/custom/" ++ dataset_name)
  let db_dataset : DatasetRow :=
    { id := st.next_dataset_id,
      name := dataset_name,
      dataset_path := info.dataset_path,
      total_images := info.train_count + info.val_count + info.test_count,
      train_images := info.train_count,
      val_images := info.val_count,
      test_images := info.test_count,
      class_distribution_train := info.class_distribution_train,
      class_distribution_val := info.class_distribution_val,
      class_distribution_test := info.class_distribution_test,
      includes_custom_types := decide (custom_classes.length > 0),
      custom_types_included := custom_defects.map (fun d => d.id),
      created_by := "retraining_pipeline" }
  ({ st with datasets := st.datasets ++ [db_dataset],
             next_dataset_id := st.next_dataset_id + 1 },
   { toTLDatasetInfo := info, dataset_id := st.next_dataset_id })

end RadiKal

namespace RadiKal

/-- Model of the version-string parsing in `create_model_version`:
`lstrip('v')`, split on dots, three integer components — any failure falls
back to `v1.0.0` (the source wraps the parse in try/except). -/
def parseVer (s : String) : Option (ℕ × ℕ × ℕ) :=
  match (s.dropWhile (fun ch => ch == 'v')).splitOn "." with
  | [a, b, c] =>
      match a.toNat?, b.toNat?, c.toNat? with
      | some x, some y, some z => some (x, y, z)
      | _, _, _ => none
  | _ => none

/-- The model version with the greatest `created_at` (first such row),
modelling `order_by(created_at.desc()).first()`. -/
def latestMV (st : DBState) : Option MV :=
  st.model_versions.foldl
    (fun acc v =>
      match acc with
      | none => some v
      | some w => if w.created_at < v.created_at then some v else acc)
    none

/-- Version-number generation of `create_model_version`: bump the minor
component of the latest version, or `v1.0.0` when there is no previous
version or its number does not parse. -/
def next_version_number (st : DBState) : String :=
  match latestMV st with
  | none => "v1.0.0"
  | some latest =>
      match parseVer latest.version_number with
      | some (major, minor, _) =>
          "v" ++ toString major ++ "." ++ toString (minor + 1) ++ ".0"
      | none => "v1.0.0"

/-- `RetrainingPipeline.create_model_version`: append a new `ModelVersion` row
with `is_active = false` and `deployment_status = "training"`, its class list
taken from the dataset snapshot's train distribution. -/
def create_model_version (st : DBState) (dataset_id : ℕ) (now : ℕ) : DBState × MV :=
  let version_number := next_version_number st
  let dataset := st.datasets.find? (fun d => d.id == dataset_id)
  let mv : MV :=
    { id := st.next_mv_id,
      version_number := version_number,
      model_path := "",
      classes :=
        match dataset with
        | some d => d.class_distribution_train.map (fun p => p.1)
        | none => [],
      num_classes :=
        match dataset with
        | some d => d.class_distribution_train.length
        | none => 0,
      is_active := false,
      deployment_status := "training",
      training_dataset_id := some dataset_id,
      epochs_trained := none,
      final_accuracy := none,
      final_map50 := none,
      val_precision := none,
      val_recall := none,
      f1_score := none,
      created_at := now,
      deployed_at := none }
  ({ st with model_versions := st.model_versions ++ [mv],
             next_mv_id := st.next_mv_id + 1 }, mv)

/-- Result dict of the external `TransferLearner.train` collaborator. -/
structure TrainRes where
  success : Bool
  best_model_path : String
  top1_acc : Option ℚ
  error : Option String
deriving DecidableEq

/-- Summary of `train_model`'s return value as consumed by the pipeline. -/
structure TrainReturn where
  success : Bool
  error : Option String
deriving DecidableEq

/-- `RetrainingPipeline.train_model`: create a running `TrainingJob`, call the
external trainer (an `Except` oracle — `.error` models a raised exception,
caught by the source's try/except), and on success mark the model version
`trained` with the final metrics, on failure mark job and version `failed`. -/
def train_model (st : DBState) (mv_id : ℕ) (total_epochs : ℕ)
    (results : Except String TrainRes) (now : ℕ) : DBState × TrainReturn :=
  let job : JobRow :=
    { id := st.next_job_id, model_version_id := mv_id, status := "running",
      total_epochs := total_epochs, current_epoch := 0, progress_percent := 0,
      latest_accuracy := none, error_message := none, started_at := some now,
      completed_at := none }
  let st1 := { st with jobs := st.jobs ++ [job], next_job_id := st.next_job_id + 1 }
  match results with
  | .ok r =>
      if r.success then
        let vs := updateFirst (fun v => v.id == mv_id)
          (fun v => { v with model_path := r.best_model_path,
                             epochs_trained := some total_epochs,
                             final_accuracy := r.top1_acc,
                             final_map50 := r.top1_acc,
                             deployment_status := "trained" }) st1.model_versions
        let js := updateFirst (fun j => j.id == job.id)
          (fun j => { j with status := "completed", completed_at := some now,
                             progress_percent := 100,
                             latest_accuracy := r.top1_acc }) st1.jobs
        ({ st1 with model_versions := vs, jobs := js },
         { success := true, error := none })
      else
        let js := updateFirst (fun j => j.id == job.id)
          (fun j => { j with status := "failed",
                             error_message := some (r.error.getD "Unknown error") }) st1.jobs
        let vs := updateFirst (fun v => v.id == mv_id)
          (fun v => { v with deployment_status := "failed" }) st1.model_versions
        ({ st1 with model_versions := vs, jobs := js },
         { success := false, error := r.error })
  | .error e =>
      let js := updateFirst (fun j => j.id == job.id)
        (fun j => { j with status := "failed", error_message := some e }) st1.jobs
      let vs := updateFirst (fun v => v.id == mv_id)
        (fun v => { v with deployment_status := "failed" }) st1.model_versions
      ({ st1 with model_versions := vs, jobs := js },
       { success := false, error := some e })

/-- Result dict of the external `TransferLearner.evaluate` collaborator. -/
structure EvalMetrics where
  top1_accuracy : Option ℚ
deriving DecidableEq

/-- Return dict of `validate_model`. -/
structure ValidationReturn where
  passes_validation : Bool
  accuracy : Option ℚ
  threshold : Option ℚ
  error : Option String
deriving DecidableEq

/-- `RetrainingPipeline.validate_model`: evaluate on the test split (an
`Except` oracle; `.error` models a raised exception, caught and turned into a
failing result with no state change), record the accuracy-like metric on the
model version, and compare `metrics.get('top1_accuracy', 0.0)` against the
validation threshold.  It never touches `deployment_status` or
`is_active`. -/
def validate_model (cfg : PipelineConfig) (st : DBState) (mv_id : ℕ)
    (metrics : Except String EvalMetrics) : DBState × ValidationReturn :=
  match metrics with
  | .error e =>
      (st, { passes_validation := false, accuracy := none, threshold := none,
             error := some e })
  | .ok m =>
      let vs := updateFirst (fun v => v.id == mv_id)
        (fun v => { v with val_precision := m.top1_accuracy,
                           val_recall := m.top1_accuracy,
                           f1_score := m.top1_accuracy }) st.model_versions
      let accuracy := m.top1_accuracy.getD 0
      ({ st with model_versions := vs },
       { passes_validation := decide (cfg.validation_threshold ≤ accuracy),
         accuracy := some accuracy, threshold := some cfg.validation_threshold,
         error := none })

/-- The deployment stage entry of the pipeline result: either the deploy
outcome or a skip with its reason. -/
inductive DeploymentStage where
  | ran (outcome : DeployOutcome)
  | skipped (reason : String)
deriving DecidableEq

/-- Structured result of `run_full_pipeline` (the keys of
`pipeline_results['stages']` become `stage_*` options, absent stages are
`none`). -/
structure PipelineResult where
  success : Bool
  message : Option String
  stage_check : Option CheckResult
  stage_dataset : Option DatasetInfo
  stage_model_version : Option String
  stage_training : Option TrainReturn
  stage_validation : Option ValidationReturn
  stage_deployment : Option DeploymentStage
  stage_failed : Option String
  error : Option String
deriving DecidableEq

/-- `RetrainingPipeline.run_full_pipeline`: check trigger, prepare dataset,
create model version, train, validate, then deploy only when `auto_deploy`
holds and validation passed; a failed validation records the deployment stage
as skipped with reason `"Failed validation"`, disabled auto-deploy with
reason `"Auto-deploy disabled"`; a failed training aborts with
`stage_failed = "training"`. -/
def run_full_pipeline (cfg : PipelineConfig) (st : DBState) (now : ℕ)
    (shuffle : List TLSample → List TLSample) (fileExists : String → Bool)
    (train_results : Except String TrainRes) (eval_metrics : Except String EvalMetrics)
    (dataset_name : String) (total_epochs : ℕ) (auto_deploy : Bool) :
    DBState × PipelineResult :=
  let check := check_retraining_needed st now
  if check.should_retrain = false then
    (st, { success := true, message := some "Retraining not needed",
           stage_check := some check, stage_dataset := none,
           stage_model_version := none, stage_training := none,
           stage_validation := none, stage_deployment := none,
           stage_failed := none, error := none })
  else
    let p1 := prepare_training_dataset st shuffle fileExists dataset_name true
    let st1 := p1.1
    let dataset_info := p1.2
    let p2 := create_model_version st1 dataset_info.dataset_id now
    let st2 := p2.1
    let mv := p2.2
    let p3 := train_model st2 mv.id total_epochs train_results now
    let st3 := p3.1
    let training := p3.2
    if training.success = false then
      (st3, { success := false, message := none, stage_check := some check,
              stage_dataset := some dataset_info,
              stage_model_version := some mv.version_number,
              stage_training := some training, stage_validation := none,
              stage_deployment := none, stage_failed := some "training",
              error := training.error })
    else
      let p4 := validate_model cfg st3 mv.id eval_metrics
      let st4 := p4.1
      let validation := p4.2
      if auto_deploy && validation.passes_validation then
        let p5 := deploy_model st4 mv.id false now
        (p5.1, { success := true, message := none, stage_check := some check,
                 stage_dataset := some dataset_info,
                 stage_model_version := some mv.version_number,
                 stage_training := some training,
                 stage_validation := some validation,
                 stage_deployment := some (.ran p5.2), stage_failed := none,
                 error := none })
      else if validation.passes_validation = false then
        (st4, { success := true, message := none, stage_check := some check,
                stage_dataset := some dataset_info,
                stage_model_version := some mv.version_number,
                stage_training := some training,
                stage_validation := some validation,
                stage_deployment := some (.skipped "Failed validation"),
                stage_failed := none, error := none })
      else
        (st4, { success := true, message := none, stage_check := some check,
                stage_dataset := some dataset_info,
                stage_model_version := some mv.version_number,
                stage_training := some training,
                stage_validation := some validation,
                stage_deployment := some (.skipped "Auto-deploy disabled"),
                stage_failed := none, error := none })

end RadiKal

namespace RadiKal

lemma updateFirst_append_of_not {α : Type} {p : α → Bool} (f : α → α) (l : List α) (a : α)
    (hl : ∀ x ∈ l, p x = false) (ha : p a = true) :
    updateFirst p f (l ++ [a]) = l ++ [f a] := by
  induction l with
  | nil => simp [updateFirst, ha]
  | cons b bs ih =>
      have hb := hl b (by simp)
      simp only [List.cons_append, updateFirst, hb, Bool.false_eq_true, if_false]
      rw [show bs.append [a] = bs ++ [a] from rfl, ih (fun x hx => hl x (by simp [hx]))]

lemma splitCounts_nil (all_classes : List String) (fileExists : String → Bool) :
    splitCounts all_classes fileExists [] = [] := by
  induction all_classes with
  | nil => rfl
  | cons c cs ih => simpa [splitCounts] using ih

lemma tl_prepare_dataset_empty (shuffle : List TLSample → List TLSample)
    (fileExists : String → Bool) (base_classes custom_classes : List String)
    (output_path : String) (hShuffle : shuffle [] = []) :
    (tl_prepare_dataset shuffle fileExists [] base_classes custom_classes
      output_path).train_count = 0 ∧
    (tl_prepare_dataset shuffle fileExists [] base_classes custom_classes
      output_path).val_count = 0 ∧
    (tl_prepare_dataset shuffle fileExists [] base_classes custom_classes
      output_path).test_count = 0 := by
  simp [tl_prepare_dataset, hShuffle, splitCounts_nil]

end RadiKal

namespace RadiKal

/-- Counterexample for C4 as stated: with one active category and zero labeled
samples, dataset assembly does not raise any `InsufficientDataError` — it
returns normally and persists exactly one `TrainingDataset` snapshot, which
has `total_images = 0`. -/
theorem c4_counterexample :
    ∃ d : DatasetRow,
      (prepare_training_dataset
        { defect_types := [{ id := 1, name := "Weld Mismatch", code := "WM",
                             is_active := true, requires_retraining := true,
                             min_samples_required := 50, current_sample_count := 0 }],
          samples := [], model_versions := [], datasets := [], jobs := [],
          queue := [], analyses := [], next_dataset_id := 1, next_mv_id := 1,
          next_job_id := 1, next_sample_id := 1 }
        id (fun _ => true) "ds1" true).1.datasets = [d] ∧
      d.total_images = 0 := by
  have hG : gatherTrainingSamples
      { defect_types := [{ id := 1, name := "Weld Mismatch", code := "WM",
                           is_active := true, requires_retraining := true,
                           min_samples_required := 50, current_sample_count := 0 }],
        samples := [], model_versions := [], datasets := [], jobs := [],
        queue := [], analyses := [], next_dataset_id := 1, next_mv_id := 1,
        next_job_id := 1, next_sample_id := 1 } = [] := rfl
  refine ⟨_, rfl, ?_⟩
  simp [prepare_training_dataset, hG, tl_prepare_dataset, splitCounts_nil]

/-- Claim C4 as amended: when the total number of labeled samples across the
included categories is zero, `prepare_training_dataset` does not fail — there
is no `InsufficientDataError` path — and it persists exactly one (empty)
`DatasetSnapshot` row with `total_images = 0`. -/
theorem c4_amended (st : DBState) (shuffle : List TLSample → List TLSample)
    (fileExists : String → Bool) (dataset_name : String) (inc : Bool)
    (hGather : gatherTrainingSamples st = [])
    (hShuffle : shuffle [] = []) :
    ∃ d : DatasetRow,
      (prepare_training_dataset st shuffle fileExists dataset_name inc).1.datasets =
        st.datasets ++ [d] ∧
      d.total_images = 0 ∧
      (prepare_training_dataset st shuffle fileExists dataset_name inc).2.dataset_id =
        st.next_dataset_id := by
  obtain ⟨h1, h2, h3⟩ := tl_prepare_dataset_empty shuffle fileExists
    (if inc then ["LP", "PO", "CR", "ND"] else [])
    ((st.defect_types.filter (fun d => d.is_active)).map (fun d => d.code))
    ("models/custom/" ++ dataset_name) hShuffle
  refine ⟨_, rfl, ?_, rfl⟩
  simp only [prepare_training_dataset, hGather]
  simp [h1, h2, h3]

/-- Witness for C4 (amended) on a concrete empty-sample state. -/
theorem c4_witness :
    ∃ d : DatasetRow,
      (prepare_training_dataset
        { defect_types := [], samples := [], model_versions := [], datasets := [],
          jobs := [], queue := [], analyses := [], next_dataset_id := 5,
          next_mv_id := 1, next_job_id := 1, next_sample_id := 1 }
        id (fun _ => false) "empty" false).1.datasets =
        [] ++ [d] ∧
      d.total_images = 0 ∧
      (prepare_training_dataset
        { defect_types := [], samples := [], model_versions := [], datasets := [],
          jobs := [], queue := [], analyses := [], next_dataset_id := 5,
          next_mv_id := 1, next_job_id := 1, next_sample_id := 1 }
        id (fun _ => false) "empty" false).2.dataset_id = 5 :=
  c4_amended _ id _ "empty" false rfl rfl

end RadiKal

namespace RadiKal

lemma prepare_training_dataset_model_versions (st : DBState)
    (shuffle : List TLSample → List TLSample) (fileExists : String → Bool)
    (nm : String) (inc : Bool) :
    (prepare_training_dataset st shuffle fileExists nm inc).1.model_versions =
      st.model_versions := rfl

lemma prepare_training_dataset_defect_types (st : DBState)
    (shuffle : List TLSample → List TLSample) (fileExists : String → Bool)
    (nm : String) (inc : Bool) :
    (prepare_training_dataset st shuffle fileExists nm inc).1.defect_types =
      st.defect_types := rfl

lemma prepare_training_dataset_next_mv_id (st : DBState)
    (shuffle : List TLSample → List TLSample) (fileExists : String → Bool)
    (nm : String) (inc : Bool) :
    (prepare_training_dataset st shuffle fileExists nm inc).1.next_mv_id =
      st.next_mv_id := rfl

lemma create_model_version_versions (st : DBState) (did now : ℕ) :
    (create_model_version st did now).1.model_versions =
      st.model_versions ++ [(create_model_version st did now).2] := rfl

lemma create_model_version_defect_types (st : DBState) (did now : ℕ) :
    (create_model_version st did now).1.defect_types = st.defect_types := rfl

lemma create_model_version_id (st : DBState) (did now : ℕ) :
    (create_model_version st did now).2.id = st.next_mv_id := rfl

lemma create_model_version_inactive (st : DBState) (did now : ℕ) :
    (create_model_version st did now).2.is_active = false := rfl

lemma train_model_ret_ok (st : DBState) (mv_id ep now : ℕ) (r : TrainRes)
    (hr : r.success = true) :
    (train_model st mv_id ep (.ok r) now).2 = { success := true, error := none } := by
  simp [train_model, hr]

lemma train_model_ok_versions (st : DBState) (mv_id ep now : ℕ) (r : TrainRes)
    (hr : r.success = true) :
    (train_model st mv_id ep (.ok r) now).1.model_versions =
      updateFirst (fun v => v.id == mv_id)
        (fun v => { v with model_path := r.best_model_path,
                           epochs_trained := some ep,
                           final_accuracy := r.top1_acc,
                           final_map50 := r.top1_acc,
                           deployment_status := "trained" }) st.model_versions := by
  simp [train_model, hr]

lemma train_model_defect_types (st : DBState) (mv_id ep now : ℕ)
    (results : Except String TrainRes) :
    (train_model st mv_id ep results now).1.defect_types = st.defect_types := by
  cases results with
  | error e => rfl
  | ok r =>
      by_cases hr : r.success = true
      · simp [train_model, hr]
      · simp [train_model, Bool.eq_false_iff.mpr hr]

lemma validate_model_ret_ok (cfg : PipelineConfig) (st : DBState) (mv_id : ℕ)
    (m : EvalMetrics) :
    (validate_model cfg st mv_id (.ok m)).2 =
      { passes_validation := decide (cfg.validation_threshold ≤ m.top1_accuracy.getD 0),
        accuracy := some (m.top1_accuracy.getD 0),
        threshold := some cfg.validation_threshold, error := none } := rfl

lemma validate_model_ok_versions (cfg : PipelineConfig) (st : DBState) (mv_id : ℕ)
    (m : EvalMetrics) :
    (validate_model cfg st mv_id (.ok m)).1.model_versions =
      updateFirst (fun v => v.id == mv_id)
        (fun v => { v with val_precision := m.top1_accuracy,
                           val_recall := m.top1_accuracy,
                           f1_score := m.top1_accuracy }) st.model_versions := rfl

lemma validate_model_defect_types (cfg : PipelineConfig) (st : DBState) (mv_id : ℕ)
    (m : EvalMetrics) :
    (validate_model cfg st mv_id (.ok m)).1.defect_types = st.defect_types := rfl

end RadiKal

namespace RadiKal

/-- Claim C3: with `auto_deploy = true`, when the trigger fires, dataset
assembly and training succeed, and the validator reports an accuracy below
`validation_threshold`, `run_full_pipeline` completes the check, dataset,
model-version, training and validation stages, records the deployment stage
as skipped with reason `"Failed validation"` without calling deploy, and the
previously active `ModelVersion` remains active: the final model-version
table is the initial one unchanged plus the single new, inactive version.
The `hst1`–`hst4` hypotheses only name the intermediate states and stage
results; `hFresh` is the autoincrement invariant that no existing row carries
the id the new version will be assigned. -/
theorem c3_failed_validation_skips_deploy
    (cfg : PipelineConfig) (st st1 st2 st3 st4 : DBState) (now : ℕ)
    (shuffle : List TLSample → List TLSample) (fileExists : String → Bool)
    (r : TrainRes) (m : EvalMetrics) (acc : ℚ) (name : String) (epochs : ℕ)
    (dinfo : DatasetInfo) (mv : MV) (tres : TrainReturn) (vres : ValidationReturn)
    (hcheck : (check_retraining_needed st now).should_retrain = true)
    (hr : r.success = true)
    (hm : m.top1_accuracy = some acc)
    (hacc : acc < cfg.validation_threshold)
    (hFresh : ∀ v ∈ st.model_versions, (v.id == st.next_mv_id) = false)
    (hst1 : prepare_training_dataset st shuffle fileExists name true = (st1, dinfo))
    (hst2 : create_model_version st1 dinfo.dataset_id now = (st2, mv))
    (hst3 : train_model st2 mv.id epochs (.ok r) now = (st3, tres))
    (hst4 : validate_model cfg st3 mv.id (.ok m) = (st4, vres)) :
    (run_full_pipeline cfg st now shuffle fileExists (.ok r) (.ok m) name epochs
        true).2.stage_deployment = some (.skipped "Failed validation") ∧
    (run_full_pipeline cfg st now shuffle fileExists (.ok r) (.ok m) name epochs
        true).2.stage_check = some (check_retraining_needed st now) ∧
    (run_full_pipeline cfg st now shuffle fileExists (.ok r) (.ok m) name epochs
        true).2.stage_dataset = some dinfo ∧
    (run_full_pipeline cfg st now shuffle fileExists (.ok r) (.ok m) name epochs
        true).2.stage_model_version = some mv.version_number ∧
    (run_full_pipeline cfg st now shuffle fileExists (.ok r) (.ok m) name epochs
        true).2.stage_training = some tres ∧
    (run_full_pipeline cfg st now shuffle fileExists (.ok r) (.ok m) name epochs
        true).2.stage_validation = some vres ∧
    (run_full_pipeline cfg st now shuffle fileExists (.ok r) (.ok m) name epochs
        true).1 = st4 ∧
    (∃ mvNew : MV, st4.model_versions = st.model_versions ++ [mvNew] ∧
      mvNew.is_active = false) ∧
    st4.defect_types = st.defect_types := by
  have h1f : (prepare_training_dataset st shuffle fileExists name true).1 = st1 :=
    congrArg Prod.fst hst1
  have h2f : (create_model_version st1 dinfo.dataset_id now).1 = st2 :=
    congrArg Prod.fst hst2
  have h2s : (create_model_version st1 dinfo.dataset_id now).2 = mv :=
    congrArg Prod.snd hst2
  have h3f : (train_model st2 mv.id epochs (.ok r) now).1 = st3 :=
    congrArg Prod.fst hst3
  have h4f : (validate_model cfg st3 mv.id (.ok m)).1 = st4 :=
    congrArg Prod.fst hst4
  have htres : tres = { success := true, error := none } := by
    have h : (train_model st2 mv.id epochs (.ok r) now).2 = tres :=
      congrArg Prod.snd hst3
    rw [train_model_ret_ok st2 mv.id epochs now r hr] at h
    exact h.symm
  have hvres : vres =
      { passes_validation := false, accuracy := some acc,
        threshold := some cfg.validation_threshold, error := none } := by
    have h : (validate_model cfg st3 mv.id (.ok m)).2 = vres :=
      congrArg Prod.snd hst4
    rw [validate_model_ret_ok, hm] at h
    simp only [Option.getD_some] at h
    rw [decide_eq_false (not_le.mpr hacc)] at h
    exact h.symm
  have hmv1 : st1.model_versions = st.model_versions := by
    rw [← h1f]
    exact prepare_training_dataset_model_versions st shuffle fileExists name true
  have hnext1 : st1.next_mv_id = st.next_mv_id := by
    rw [← h1f]
    exact prepare_training_dataset_next_mv_id st shuffle fileExists name true
  have hmv2 : st2.model_versions = st.model_versions ++ [mv] := by
    rw [← h2f, create_model_version_versions, h2s, hmv1]
  have hid : mv.id = st.next_mv_id := by
    rw [← h2s, create_model_version_id, hnext1]
  have hmvact : mv.is_active = false := by
    rw [← h2s]
    exact create_model_version_inactive st1 dinfo.dataset_id now
  have hq : ∀ v ∈ st.model_versions, (v.id == mv.id) = false := by
    intro v hv
    rw [hid]
    exact hFresh v hv
  have hmv3 : st3.model_versions = st.model_versions ++
      [{ mv with model_path := r.best_model_path, epochs_trained := some epochs,
                 final_accuracy := r.top1_acc, final_map50 := r.top1_acc,
                 deployment_status := "trained" }] := by
    rw [← h3f, train_model_ok_versions st2 mv.id epochs now r hr, hmv2,
      updateFirst_append_of_not _ _ _ hq (by simp)]
  have hmv4 : ∃ mvNew : MV, st4.model_versions = st.model_versions ++ [mvNew] ∧
      mvNew.is_active = false := by
    refine ⟨{ mv with
      model_path := r.best_model_path, epochs_trained := some epochs,
      final_accuracy := r.top1_acc, final_map50 := r.top1_acc,
      deployment_status := "trained", val_precision := m.top1_accuracy,
      val_recall := m.top1_accuracy, f1_score := m.top1_accuracy }, ?_, ?_⟩
    · rw [← h4f, validate_model_ok_versions, hmv3,
        updateFirst_append_of_not _ _ _ hq (by simp)]
    · exact hmvact
  have hdt : st4.defect_types = st.defect_types := by
    rw [← h4f, validate_model_defect_types, ← h3f, train_model_defect_types,
      ← h2f, create_model_version_defect_types, ← h1f,
      prepare_training_dataset_defect_types]
  have hrun : run_full_pipeline cfg st now shuffle fileExists (.ok r) (.ok m) name
      epochs true =
      (st4, { success := true, message := none,
              stage_check := some (check_retraining_needed st now),
              stage_dataset := some dinfo,
              stage_model_version := some mv.version_number,
              stage_training := some tres,
              stage_validation := some vres,
              stage_deployment := some (.skipped "Failed validation"),
              stage_failed := none, error := none }) := by
    simp only [run_full_pipeline, hcheck, hst1, hst2, hst3, hst4, htres, hvres]
    simp
  rw [hrun]
  exact ⟨rfl, rfl, rfl, rfl, rfl, rfl, rfl, hmv4, hdt⟩


end RadiKal

namespace RadiKal

/-- Witness for C3 on a concrete state: one active deployed version, a
retraining-flagged category, a successful training run and a validator
accuracy of `4/5` against a threshold of `17/20`. -/
theorem c3_witness :
    (run_full_pipeline
      { base_model_path := "yolov8s-cls.pt", min_samples_per_class := 50,
        validation_threshold := 17/20 }
      { defect_types := [{ id := 1, name := "Weld Mismatch", code := "WM",
                           is_active := true, requires_retraining := true,
                           min_samples_required := 50, current_sample_count := 0 }],
        samples := [],
        model_versions :=
          [{ id := 1, version_number := "v1.0.0", model_path := "m.pt", classes := [],
             num_classes := 0, is_active := true, deployment_status := "deployed",
             training_dataset_id := none, epochs_trained := none,
             final_accuracy := none, final_map50 := none, val_precision := none,
             val_recall := none, f1_score := none, created_at := 0,
             deployed_at := some 0 }],
        datasets := [], jobs := [], queue := [], analyses := [],
        next_dataset_id := 1, next_mv_id := 2, next_job_id := 1, next_sample_id := 1 }
      100 id (fun _ => false)
      (.ok { success := true, best_model_path := "new.pt", top1_acc := some (4/5),
             error := none })
      (.ok { top1_accuracy := some (4/5) })
      "ds" 50 true).2.stage_deployment = some (.skipped "Failed validation") :=
  (c3_failed_validation_skips_deploy _ _ _ _ _ _ _ _ _ _ _ _ _ _ _ _ _ _
    (by decide) rfl rfl (by norm_num) (by decide) rfl rfl rfl rfl).1

end RadiKal
